import Mathlib

/-!
Verification of the request routing / forwarding pipeline of the
OpenAI-API reverse proxy in `src/main.py` (FastAPI application).

The Python handlers are shallowly embedded as pure Lean functions.  The
external HTTP world (the upstream providers) is passed in as an explicit
oracle value describing the observable outcome of each upstream call, and
every handler returns, besides its result, the ordered list of observable
side-effect events it performs (upstream calls, audit-log writes, response
chunks), so that ordering properties can be stated.
-/

namespace GroqProxy

/-- JSON values, as produced by Python's `json` module / `request.json()`.
Objects are the parsed `dict`: an association list with distinct keys in
insertion order; numbers are modelled as integers (no claim involves
fractional numbers). -/
inductive Json where
  | null
  | bool (b : Bool)
  | num (n : Int)
  | str (s : String)
  | arr (elems : List Json)
  | obj (fields : List (String × Json))

/-- Python exceptions relevant to `main.py` that the handler code can raise
and does not catch (the handlers catch only `httpx.HTTPError`). -/
inductive PyError where
  | attributeError (msg : String)
  | keyError (msg : String)
  | typeError (msg : String)
  | jsonDecodeError (msg : String)
deriving DecidableEq

/-- Key lookup in a parsed Python dict (keys are distinct, first match). -/
def lookupField : List (String × Json) → String → Option Json
  | [], _ => none
  | (k, v) :: rest, key => if k = key then some v else lookupField rest key

/-- Python `d.get(key)`: on a dict, the value or `None`; on any other JSON
value the attribute `get` does not exist, so an `AttributeError` is raised. -/
def Json.pyGet : Json → String → Except PyError Json
  | .obj fields, key => .ok ((lookupField fields key).getD .null)
  | _, _ => .error (.attributeError "object has no attribute get")

/-- Python `d[key]` with a string key: on a dict, the value or `KeyError`;
on any other JSON value, a `TypeError`. -/
def Json.pyIndex : Json → String → Except PyError Json
  | .obj fields, key =>
      match lookupField fields key with
      | some v => .ok v
      | none => .error (.keyError key)
  | _, _ => .error (.typeError "object is not subscriptable with a string key")

/-- Python `v == "s"` for a string literal `"s"`: true exactly when `v` is
that string (no other JSON value compares equal to a `str`). -/
def Json.eqStr : Json → String → Bool
  | .str a, s => a == s
  | _, _ => false

/-- Python `v is True`: identity with the `True` singleton, true exactly
when `v` is the boolean `True`. -/
def Json.isTrueLit : Json → Bool
  | .bool b => b
  | _ => false

/-- The environment the process started with.  Startup asserts that
`OPENAI_API_KEY` is set (`main.py` raises otherwise); `GROQ_API_KEY` is
read lazily by `os.getenv` and may be absent. -/
structure Env where
  OPENAI_API_KEY : String
  GROQ_API_KEY : Option String

def OPENAI_BASE_URL : String := "https://api.openai.com/v1"

def GROQ_BASE_URL : String := "https://api.groq.com/openai/v1"

/-- An upstream endpoint together with the credential used against it
(`none` models a Python `None` from `os.getenv`). -/
structure UpstreamTarget where
  base_url : String
  api_key : Option String
deriving DecidableEq

/-- Lines 156–162 of `main.py`: pick API key and base URL from the body's
`model` field (`body.get("model")`, compared with `"qwen-2.5-coder-32b"`). -/
def selectUpstream (env : Env) (body : Json) : Except PyError UpstreamTarget :=
  match body.pyGet "model" with
  | .error e => .error e
  | .ok model =>
      if model.eqStr "qwen-2.5-coder-32b" then
        .ok ⟨GROQ_BASE_URL, env.GROQ_API_KEY⟩
      else
        .ok ⟨OPENAI_BASE_URL, some env.OPENAI_API_KEY⟩

/-- One persisted log entry (`save_request_response` writes exactly this
dictionary to its file). -/
structure AuditRecord where
  timestamp : Nat
  endpoint : String
  request : Json
  response : Json

/-- Python `endpoint.replace('/', '_')`: the pattern is a single character,
so the replacement maps each `/` to `_`. -/
def sanitizeEndpoint (s : String) : String :=
  String.mk (s.data.map fun c => if c = '/' then '_' else c)

/-- Lines 48–63 of `main.py`: build the audit record and the file name it
is saved under.  The wall-clock millisecond timestamp is a parameter. -/
def save_request_response (timestamp : Nat) (request_data response_data : Json)
    (endpoint : String) : AuditRecord × String :=
  (⟨timestamp, endpoint, request_data, response_data⟩,
   sanitizeEndpoint endpoint ++ "_" ++ toString timestamp ++ ".json")

/-- Observable side effects of a handler, in the order they happen. -/
inductive Event where
  | getRequest (url : String) (api_key : Option String)
  | bufferedRequest (url : String) (api_key : Option String) (body : Json)
  | responseReceived
  | streamOpen (url : String) (api_key : Option String) (body : Json)
  | chunk (s : String)
  | auditWrite (r : AuditRecord)

/-- The audit records written along a trace, in order. -/
def auditsOf : List Event → List AuditRecord
  | [] => []
  | .auditWrite r :: rest => r :: auditsOf rest
  | _ :: rest => auditsOf rest

/-- Number of buffered upstream POSTs issued along a trace. -/
def bufferedRequestCount : List Event → Nat
  | [] => 0
  | .bufferedRequest _ _ _ :: rest => bufferedRequestCount rest + 1
  | _ :: rest => bufferedRequestCount rest

/-- Whether a trace contains a buffered upstream POST (buffered mode). -/
def usedBuffered : List Event → Bool
  | [] => false
  | .bufferedRequest _ _ _ :: _ => true
  | _ :: rest => usedBuffered rest

/-- Observable outcome of one upstream HTTP call: either `httpx` raises a
transport error (`httpx.HTTPError`), or a response arrives with some status
code and a body that `response.json()` either parses (`some`) or fails to
parse, raising `json.JSONDecodeError` (`none`). -/
inductive UpstreamOutcome where
  | transportError (msg : String)
  | response (status : Nat) (body : Option Json)

/-- Oracle for the upstream world seen by one `proxy_request` call:
the outcome of the buffered `client.post`, and the text chunks
`aiter_text` would yield on the streaming path. -/
structure Upstream where
  post : UpstreamOutcome
  chunks : List String

/-- What a handler produces: a JSON document returned with HTTP 200, a
streaming response, a raised `fastapi.HTTPException` (turned into an HTTP
error response with that status and detail by the framework), or an
uncaught Python exception (the framework turns it into a generic 500
carrying no information from the handler). -/
inductive ProxyResult where
  | json (body : Json)
  | stream (chunks : List String)
  | httpException (status : Nat) (detail : String)
  | pythonError (e : PyError)

/-- Whether the result is a streaming response (streaming mode was used). -/
def ProxyResult.isStream : ProxyResult → Bool
  | .stream _ => true
  | _ => false

/-- Whether the handler completed successfully (returned a JSON document or
a streaming response rather than raising). -/
def ProxyResult.isSuccess : ProxyResult → Bool
  | .json _ => true
  | .stream _ => true
  | _ => false

/-- Whether the result is a `fastapi.HTTPException` raised by the handler
itself (only these carry a handler-chosen status and detail message). -/
def ProxyResult.isHttpException : ProxyResult → Bool
  | .httpException _ _ => true
  | _ => false

/-- The fixed placeholder audited for streaming responses (line 177). -/
def streamingPlaceholder : Json :=
  .obj [("stream", .bool true), ("message", .str "streaming response")]

/-- Lines 164–202 of `main.py`: the part of `proxy_request` after upstream
selection.  `streamFlag` is the value of `body.get("stream")`. -/
def forward (now : Nat) (path : String) (body : Json) (target : UpstreamTarget)
    (streamFlag : Json) (up : Upstream) : ProxyResult × List Event :=
  let url := target.base_url ++ "/" ++ path
  if path = "chat/completions" ∧ streamFlag.isTrueLit then
    let r0 := (save_request_response now body streamingPlaceholder path).1
    (.stream up.chunks,
     .auditWrite r0 :: .streamOpen url target.api_key body ::
       up.chunks.map Event.chunk)
  else
    match up.post with
    | .transportError msg =>
        (.httpException 500 ("Error forwarding request: " ++ msg),
         [.bufferedRequest url target.api_key body])
    | .response _ none =>
        (.pythonError (.jsonDecodeError "Expecting value"),
         [.bufferedRequest url target.api_key body, .responseReceived])
    | .response _ (some response_data) =>
        let r0 := (save_request_response now body response_data path).1
        (.json response_data,
         [.bufferedRequest url target.api_key body, .responseReceived,
          .auditWrite r0])

/-- Lines 145–202 of `main.py`: the POST handler.  `now` is the wall-clock
millisecond timestamp at audit time, `up` the upstream oracle. -/
def proxy_request (env : Env) (now : Nat) (path : String) (body : Json)
    (up : Upstream) : ProxyResult × List Event :=
  if path = "models" then
    (.httpException 405 "Method not allowed. Use GET for /models endpoint", [])
  else
    match selectUpstream env body, body.pyGet "stream" with
    | .error e, _ => (.pythonError e, [])
    | .ok _, .error e => (.pythonError e, [])
    | .ok target, .ok streamFlag => forward now path body target streamFlag up

/-- The statically appended model descriptor (lines 125–130), with
`created = int(time.time())` passed in as `nowSec`. -/
def qwenModelEntry (nowSec : Nat) : Json :=
  .obj [("id", .str "qwen-2.5-coder-32b"), ("object", .str "model"),
        ("created", .num nowSec), ("owned_by", .str "system")]

/-- In-place update of one key of a parsed dict (`d[key] = v` where the key
is known to be present; appends when absent, like Python). -/
def setField : List (String × Json) → String → Json → List (String × Json)
  | [], key, v => [(key, v)]
  | (k, w) :: rest, key, v =>
      if k = key then (key, v) :: rest else (k, w) :: setField rest key v

/-- Lines 106–143 of `main.py`: the GET `/models` handler.  `nowSec` is
`int(time.time())` at descriptor construction, `nowMs` the millisecond
timestamp at audit time, `up` the outcome of the upstream GET. -/
def get_models (env : Env) (nowSec nowMs : Nat) (up : UpstreamOutcome) :
    ProxyResult × List Event :=
  let url := OPENAI_BASE_URL ++ "/models"
  let call : Event := .getRequest url (some env.OPENAI_API_KEY)
  match up with
  | .transportError msg =>
      (.httpException 500 ("Error getting models: " ++ msg), [call])
  | .response _ none =>
      (.pythonError (.jsonDecodeError "Expecting value"),
       [call, .responseReceived])
  | .response _ (some response_data) =>
      match response_data with
      | .obj fs =>
          match lookupField fs "data" with
          | some (.arr xs) =>
              let augmented :=
                Json.obj (setField fs "data"
                  (.arr (xs ++ [qwenModelEntry nowSec])))
              let r0 :=
                (save_request_response nowMs (.obj []) augmented "models").1
              (.json augmented, [call, .responseReceived, .auditWrite r0])
          | some _ =>
              (.pythonError (.attributeError "object has no attribute append"),
               [call, .responseReceived])
          | none =>
              (.pythonError (.keyError "data"), [call, .responseReceived])
      | _ =>
          (.pythonError
             (.typeError "object is not subscriptable with a string key"),
           [call, .responseReceived])

/-- What the OPTIONS handler returns: the JSON body and the response
headers (lines 93–104). -/
structure OptionsResponse where
  content : Json
  headers : List (String × String)
  events : List Event

/-- Lines 65–104 of `main.py`: the OPTIONS handler. -/
def options_request (path : String) : OptionsResponse :=
  let available_methods : List String :=
    ["OPTIONS"] ++ (if path = "models" then ["GET"] else ["POST"])
  let endpoint_info : List (String × Json) :=
    (if path = "models" then
      [("GET", .obj [("description", .str "List available models"),
                     ("requires_auth", .bool true)])]
     else
      [("POST", .obj [("description",
                        .str "Forward requests to OpenAI API and log interactions"),
                      ("requires_auth", .bool true),
                      ("content_type", .str "application/json")])])
    ++ [("OPTIONS", .obj [("description",
                            .str "Get available methods and endpoint information"),
                          ("requires_auth", .bool false)])]
  let allow := String.intercalate ", " available_methods
  { content := .obj [("methods", .arr (available_methods.map Json.str)),
                     ("description", .str "OpenAI API Proxy with Request Tracking"),
                     ("endpoints", .obj endpoint_info)],
    headers := [("Allow", allow),
                ("Access-Control-Allow-Methods", allow),
                ("Access-Control-Allow-Headers", "*")],
    events := [] }

/-- Field lookup on a JSON value (`none` when not an object). -/
def Json.objLookup : Json → String → Option Json
  | .obj fields, key => lookupField fields key
  | _, _ => none

/-- Header lookup in a response-header association list. -/
def lookupHeader : List (String × String) → String → Option String
  | [], _ => none
  | (k, v) :: rest, key => if k = key then some v else lookupHeader rest key

/-- The upstream target `proxy_request` picks for a given parsed dict body:
the alternate (Groq) target exactly when the `model` field is the string
`"qwen-2.5-coder-32b"`, the default (OpenAI) target otherwise. -/
def chosenTarget (env : Env) (fields : List (String × Json)) : UpstreamTarget :=
  if Json.eqStr ((lookupField fields "model").getD Json.null) "qwen-2.5-coder-32b"
  then ⟨GROQ_BASE_URL, env.GROQ_API_KEY⟩
  else ⟨OPENAI_BASE_URL, some env.OPENAI_API_KEY⟩

/-- Whether a model-catalog entry carries the alternate model identifier. -/
def isQwenEntry (j : Json) : Bool :=
  match j.objLookup "id" with
  | some v => v.eqStr "qwen-2.5-coder-32b"
  | none => false

/-- Number of catalog entries advertising the alternate model identifier. -/
def qwenEntryCount (xs : List Json) : Nat := (xs.filter isQwenEntry).length

/-- Example environment used for concrete evaluations. -/
def envEx : Env := ⟨"sk-default", some "gsk-alternate"⟩

/-- Example upstream oracle: a parseable 200 response, no stream chunks. -/
def upOkEmpty : Upstream := ⟨.response 200 (some (Json.obj [])), []⟩

theorem eqStr_getD (o : Option Json) (s : String) :
    (Json.eqStr (o.getD Json.null) s = true) ↔ o = some (Json.str s) := by
  cases o with
  | none => simp [Json.eqStr]
  | some v => cases v <;> simp [Json.eqStr]

theorem isTrueLit_getD (o : Option Json) :
    (Json.isTrueLit (o.getD Json.null) = true) ↔ o = some (Json.bool true) := by
  cases o with
  | none => simp [Json.isTrueLit]
  | some v => cases v <;> simp [Json.isTrueLit]

theorem selectUpstream_obj (env : Env) (fields : List (String × Json)) :
    selectUpstream env (Json.obj fields) = .ok (chosenTarget env fields) := by
  simp only [selectUpstream, Json.pyGet, chosenTarget]
  split <;> rfl

theorem proxy_request_obj (env : Env) (now : Nat) (path : String)
    (fields : List (String × Json)) (up : Upstream) (h : path ≠ "models") :
    proxy_request env now path (Json.obj fields) up =
      forward now path (Json.obj fields) (chosenTarget env fields)
        ((lookupField fields "stream").getD Json.null) up := by
  simp only [proxy_request, if_neg h, selectUpstream_obj, Json.pyGet]

theorem auditsOf_chunkMap (cs : List String) :
    auditsOf (cs.map Event.chunk) = [] := by
  induction cs with
  | nil => rfl
  | cons c rest ih => simp [auditsOf, ih]

theorem usedBuffered_chunkMap (cs : List String) :
    usedBuffered (cs.map Event.chunk) = false := by
  induction cs with
  | nil => rfl
  | cons c rest ih => simp [usedBuffered, ih]

/-- C7: for every request body, a POST to the literal path `"models"` is
rejected with a 405 "method not allowed" result, the request is not
forwarded to any upstream (the event trace is empty, so no upstream call
happens), and no AuditRecord is written. -/
theorem C7_post_models_rejected (env : Env) (now : Nat) (body : Json)
    (up : Upstream) :
    proxy_request env now "models" body up =
      (.httpException 405 "Method not allowed. Use GET for /models endpoint",
       []) := by
  simp [proxy_request]

/-- C2 counterexample: the claim quantifies over every JSON request body
and asserts a total selection with no error cases, predicting the default
upstream for a body without a `model` field.  For the JSON body `[]` (a
JSON array), `body.get("model")` raises `AttributeError` instead: the
selector does not return the default target. -/
theorem C2_counterexample :
    selectUpstream envEx (Json.arr []) ≠
      Except.ok ⟨OPENAI_BASE_URL, some envEx.OPENAI_API_KEY⟩ := by
  simp [selectUpstream, Json.pyGet]

/-- C2 amended: for every JSON *object* body, the upstream selector totally
succeeds (returns `.ok` of the chosen target, never an error), and the
chosen target is the alternate upstream (Groq base URL with the
`GROQ_API_KEY` credential) exactly when the `model` field is the string
`"qwen-2.5-coder-32b"`; for any other value of `model`, or when `model` is
absent, it is the default upstream (OpenAI base URL with the default
credential).  (On non-object JSON bodies the selection raises
`AttributeError`, see the counterexample.) -/
theorem C2_selector_on_objects (env : Env) (fields : List (String × Json)) :
    selectUpstream env (Json.obj fields) = .ok (chosenTarget env fields) ∧
    (chosenTarget env fields = ⟨GROQ_BASE_URL, env.GROQ_API_KEY⟩ ↔
      lookupField fields "model" = some (Json.str "qwen-2.5-coder-32b")) ∧
    (chosenTarget env fields = ⟨GROQ_BASE_URL, env.GROQ_API_KEY⟩ ∨
      chosenTarget env fields = ⟨OPENAI_BASE_URL, some env.OPENAI_API_KEY⟩) := by
  refine ⟨selectUpstream_obj env fields, ?_, ?_⟩
  · cases hb : Json.eqStr ((lookupField fields "model").getD Json.null)
        "qwen-2.5-coder-32b" with
    | false =>
        have hc : lookupField fields "model" ≠
            some (Json.str "qwen-2.5-coder-32b") := by
          intro h
          simp [(eqStr_getD _ _).2 h] at hb
        unfold chosenTarget
        rw [if_neg (by simp [hb])]
        simp [hc, UpstreamTarget.mk.injEq, OPENAI_BASE_URL, GROQ_BASE_URL]
    | true =>
        have hc := (eqStr_getD _ _).1 hb
        unfold chosenTarget
        rw [if_pos hb]
        simp [hc]
  · cases hb : Json.eqStr ((lookupField fields "model").getD Json.null)
        "qwen-2.5-coder-32b" with
    | false =>
        exact Or.inr (by unfold chosenTarget; rw [if_neg (by simp [hb])])
    | true =>
        exact Or.inl (by unfold chosenTarget; rw [if_pos hb])

/-- C1 counterexample: the claim asserts exactly one AuditRecord per
inbound proxied POST request for every outcome, including upstream error.
On a buffered request whose upstream call fails at the transport level,
the handler writes no audit record at all. -/
theorem C1_counterexample :
    auditsOf (proxy_request envEx 0 "chat/completions"
        (Json.obj [("model", Json.str "gpt-4")])
        ⟨.transportError "Connection refused", []⟩).2 = [] := by
  rfl

/-- C1 amended: per inbound proxied POST request, at most one AuditRecord
is written, and exactly one is written precisely when the handler completes
successfully (returns a JSON document or starts a streaming response); on
the 405 rejection, on an uncaught Python error, and on the upstream
transport-error and JSON-parse-failure paths, no AuditRecord is written. -/
theorem C1_audit_count (env : Env) (now : Nat) (path : String) (body : Json)
    (up : Upstream) :
    (auditsOf (proxy_request env now path body up).2).length =
      (if (proxy_request env now path body up).1.isSuccess then 1 else 0) := by
  unfold proxy_request
  split
  · simp [auditsOf, ProxyResult.isSuccess]
  · split
    · simp [auditsOf, ProxyResult.isSuccess]
    · simp [auditsOf, ProxyResult.isSuccess]
    · unfold forward
      split
      · simp [auditsOf, ProxyResult.isSuccess, auditsOf_chunkMap]
      · split <;> simp [auditsOf, ProxyResult.isSuccess]

/-- C3 counterexample: the claim says every inbound POST request that does
not satisfy the streaming condition uses buffered mode.  A POST to the
path `"models"` satisfies neither: it is rejected with 405 before any
forwarding, so neither a streaming response is produced nor a buffered
upstream POST issued. -/
theorem C3_counterexample :
    (proxy_request envEx 0 "models" (Json.obj []) upOkEmpty).1.isStream =
      false ∧
    usedBuffered (proxy_request envEx 0 "models" (Json.obj []) upOkEmpty).2 =
      false :=
  ⟨rfl, rfl⟩

/-- C3 amended: for every POST request whose path is not `"models"` and
whose body is a JSON object, streaming mode is used if and only if the path
equals `"chat/completions"` and the body's `stream` field is the boolean
`true`; in every other such case a buffered upstream POST is issued.
(POST `/models` is rejected before mode selection, and a non-object body
raises before mode selection.) -/
theorem C3_mode_selection (env : Env) (now : Nat) (path : String)
    (fields : List (String × Json)) (up : Upstream) (h : path ≠ "models") :
    ((proxy_request env now path (Json.obj fields) up).1.isStream = true ↔
      (path = "chat/completions" ∧
        lookupField fields "stream" = some (Json.bool true))) ∧
    (usedBuffered (proxy_request env now path (Json.obj fields) up).2 = true ↔
      ¬(path = "chat/completions" ∧
        lookupField fields "stream" = some (Json.bool true))) := by
  rw [proxy_request_obj env now path fields up h]
  by_cases hc : path = "chat/completions" ∧
      lookupField fields "stream" = some (Json.bool true)
  · unfold forward
    rw [if_pos ⟨hc.1, (isTrueLit_getD _).2 hc.2⟩]
    exact ⟨by simp [ProxyResult.isStream, hc],
           by simp [usedBuffered, usedBuffered_chunkMap, hc]⟩
  · unfold forward
    rw [if_neg (fun hx => hc ⟨hx.1, (isTrueLit_getD _).1 hx.2⟩)]
    cases hup : up.post with
    | transportError msg => simp [ProxyResult.isStream, usedBuffered, hc]
    | response st ob =>
        cases ob <;> simp [ProxyResult.isStream, usedBuffered, hc]

/-- C3 witness: a request to `"embeddings"` with `stream` absent uses
buffered mode and not streaming mode. -/
theorem C3_witness :
    ("embeddings" : String) ≠ "models" ∧
    (((proxy_request envEx 0 "embeddings" (Json.obj []) upOkEmpty).1.isStream =
        true ↔
      ("embeddings" = "chat/completions" ∧
        lookupField [] "stream" = some (Json.bool true))) ∧
    (usedBuffered (proxy_request envEx 0 "embeddings" (Json.obj [])
        upOkEmpty).2 = true ↔
      ¬("embeddings" = "chat/completions" ∧
        lookupField [] "stream" = some (Json.bool true)))) :=
  ⟨by decide, C3_mode_selection envEx 0 "embeddings" [] upOkEmpty (by decide)⟩

/-- C4: for every streaming-mode request (path `"chat/completions"` with
boolean-`true` `stream` field), the whole interaction is: the audit write
first, then the upstream stream is opened, then the chunks are forwarded —
so exactly one AuditRecord is written and it is written before the first
byte reaches the caller, and its response field is the fixed streaming
placeholder, never the streamed content. -/
theorem C4_streaming_audit_before_stream (env : Env) (now : Nat)
    (fields : List (String × Json)) (up : Upstream)
    (h : lookupField fields "stream" = some (Json.bool true)) :
    proxy_request env now "chat/completions" (Json.obj fields) up =
      (.stream up.chunks,
       .auditWrite ⟨now, "chat/completions", Json.obj fields,
           streamingPlaceholder⟩ ::
         .streamOpen ((chosenTarget env fields).base_url ++ "/" ++
             "chat/completions")
           (chosenTarget env fields).api_key (Json.obj fields) ::
         up.chunks.map Event.chunk) ∧
    auditsOf (proxy_request env now "chat/completions" (Json.obj fields)
        up).2 =
      [⟨now, "chat/completions", Json.obj fields, streamingPlaceholder⟩] := by
  have hne : ("chat/completions" : String) ≠ "models" := by decide
  have hmain : proxy_request env now "chat/completions" (Json.obj fields) up =
      (.stream up.chunks,
       .auditWrite ⟨now, "chat/completions", Json.obj fields,
           streamingPlaceholder⟩ ::
         .streamOpen ((chosenTarget env fields).base_url ++ "/" ++
             "chat/completions")
           (chosenTarget env fields).api_key (Json.obj fields) ::
         up.chunks.map Event.chunk) := by
    rw [proxy_request_obj env now _ fields up hne]
    unfold forward
    rw [if_pos ⟨rfl, (isTrueLit_getD _).2 h⟩]
    rfl
  exact ⟨hmain, by rw [hmain]; simp [auditsOf, auditsOf_chunkMap]⟩

/-- C4 witness: a concrete streaming request with two upstream chunks. -/
theorem C4_witness :
    lookupField [("model", Json.str "qwen-2.5-coder-32b"),
        ("stream", Json.bool true)] "stream" = some (Json.bool true) ∧
    (proxy_request envEx 5 "chat/completions"
        (Json.obj [("model", Json.str "qwen-2.5-coder-32b"),
          ("stream", Json.bool true)])
        ⟨.transportError "unused", ["data: a", "data: b"]⟩ =
      (.stream ["data: a", "data: b"],
       .auditWrite ⟨5, "chat/completions",
           Json.obj [("model", Json.str "qwen-2.5-coder-32b"),
             ("stream", Json.bool true)], streamingPlaceholder⟩ ::
         .streamOpen ((chosenTarget envEx
               [("model", Json.str "qwen-2.5-coder-32b"),
                ("stream", Json.bool true)]).base_url ++ "/" ++
             "chat/completions")
           (chosenTarget envEx [("model", Json.str "qwen-2.5-coder-32b"),
              ("stream", Json.bool true)]).api_key
           (Json.obj [("model", Json.str "qwen-2.5-coder-32b"),
             ("stream", Json.bool true)]) ::
         (["data: a", "data: b"] : List String).map Event.chunk) ∧
    auditsOf (proxy_request envEx 5 "chat/completions"
        (Json.obj [("model", Json.str "qwen-2.5-coder-32b"),
          ("stream", Json.bool true)])
        ⟨.transportError "unused", ["data: a", "data: b"]⟩).2 =
      [⟨5, "chat/completions",
        Json.obj [("model", Json.str "qwen-2.5-coder-32b"),
          ("stream", Json.bool true)], streamingPlaceholder⟩]) :=
  ⟨rfl, C4_streaming_audit_before_stream envEx 5
    [("model", Json.str "qwen-2.5-coder-32b"), ("stream", Json.bool true)]
    ⟨.transportError "unused", ["data: a", "data: b"]⟩ rfl⟩

/-- C5: for every buffered-mode request that succeeds (upstream response
received and parsed as JSON `j`), the handler returns `j`, and the trace is
exactly: buffered upstream POST, response received, then one audit write
whose record's response field is exactly `j` — so exactly one AuditRecord
is written, equal to the value returned to the caller, and only after the
upstream response is fully known and parsed. -/
theorem C5_buffered_success_audit (env : Env) (now : Nat) (path : String)
    (fields : List (String × Json)) (st : Nat) (j : Json) (cs : List String)
    (h1 : path ≠ "models")
    (h2 : ¬(path = "chat/completions" ∧
        lookupField fields "stream" = some (Json.bool true))) :
    proxy_request env now path (Json.obj fields)
        ⟨.response st (some j), cs⟩ =
      (.json j,
       [.bufferedRequest ((chosenTarget env fields).base_url ++ "/" ++ path)
          (chosenTarget env fields).api_key (Json.obj fields),
        .responseReceived,
        .auditWrite ⟨now, path, Json.obj fields, j⟩]) := by
  rw [proxy_request_obj env now path fields _ h1]
  unfold forward
  rw [if_neg (fun hx => h2 ⟨hx.1, (isTrueLit_getD _).1 hx.2⟩)]
  rfl

/-- C5 witness: a concrete successful buffered request. -/
theorem C5_witness :
    ("embeddings" : String) ≠ "models" ∧
    ¬("embeddings" = "chat/completions" ∧
      lookupField [("model", Json.str "gpt-4")] "stream" =
        some (Json.bool true)) ∧
    proxy_request envEx 3 "embeddings"
        (Json.obj [("model", Json.str "gpt-4")])
        ⟨.response 200 (some (Json.obj [("object", Json.str "list")])), []⟩ =
      (.json (Json.obj [("object", Json.str "list")]),
       [.bufferedRequest ((chosenTarget envEx
             [("model", Json.str "gpt-4")]).base_url ++ "/" ++ "embeddings")
          (chosenTarget envEx [("model", Json.str "gpt-4")]).api_key
          (Json.obj [("model", Json.str "gpt-4")]),
        .responseReceived,
        .auditWrite ⟨3, "embeddings", Json.obj [("model", Json.str "gpt-4")],
          Json.obj [("object", Json.str "list")]⟩]) :=
  ⟨by decide, by simp [lookupField],
   C5_buffered_success_audit envEx 3 "embeddings"
     [("model", Json.str "gpt-4")] 200
     (Json.obj [("object", Json.str "list")]) [] (by decide)
     (by simp [lookupField])⟩

/-- C6 counterexample: the claim says a buffered response that cannot be
parsed as JSON is reported to the caller as a 500 internal-error result
carrying the underlying cause in its message.  In the code,
`response.json()` raises `json.JSONDecodeError`, which the
`except httpx.HTTPError` clause does not catch: the handler raises an
uncaught Python error (the framework then answers with a generic 500
carrying no cause), not an `HTTPException` with the cause in its detail. -/
theorem C6_counterexample :
    (proxy_request envEx 0 "embeddings" (Json.obj [("model", Json.str "gpt-4")])
        ⟨.response 200 none, []⟩).1 =
      ProxyResult.pythonError (.jsonDecodeError "Expecting value") ∧
    (proxy_request envEx 0 "embeddings" (Json.obj [("model", Json.str "gpt-4")])
        ⟨.response 200 none, []⟩).1.isHttpException = false :=
  ⟨rfl, rfl⟩

/-- C6 amended: in buffered mode, a transport-level upstream failure is
reported to the caller as a 500 `HTTPException` carrying the underlying
cause in its message, while an unparsable upstream response raises an
uncaught `json.JSONDecodeError` (surfaced by the framework as a generic 500
without the cause).  In both cases exactly one upstream POST is issued (no
retry) and no AuditRecord is written. -/
theorem C6_buffered_error_paths (env : Env) (now : Nat) (path : String)
    (fields : List (String × Json)) (msg : String) (st : Nat)
    (cs : List String)
    (h1 : path ≠ "models")
    (h2 : ¬(path = "chat/completions" ∧
        lookupField fields "stream" = some (Json.bool true))) :
    (proxy_request env now path (Json.obj fields)
        ⟨.transportError msg, cs⟩ =
      (.httpException 500 ("Error forwarding request: " ++ msg),
       [.bufferedRequest ((chosenTarget env fields).base_url ++ "/" ++ path)
          (chosenTarget env fields).api_key (Json.obj fields)])) ∧
    (proxy_request env now path (Json.obj fields)
        ⟨.response st none, cs⟩ =
      (.pythonError (.jsonDecodeError "Expecting value"),
       [.bufferedRequest ((chosenTarget env fields).base_url ++ "/" ++ path)
          (chosenTarget env fields).api_key (Json.obj fields),
        .responseReceived])) := by
  constructor <;>
  · rw [proxy_request_obj env now path fields _ h1]
    unfold forward
    rw [if_neg (fun hx => h2 ⟨hx.1, (isTrueLit_getD _).1 hx.2⟩)]

/-- C6 witness: concrete transport-error and parse-failure requests. -/
theorem C6_witness :
    ("completions" : String) ≠ "models" ∧
    ¬("completions" = "chat/completions" ∧
      lookupField [] "stream" = some (Json.bool true)) ∧
    ((proxy_request envEx 7 "completions" (Json.obj [])
        ⟨.transportError "Connection refused", []⟩ =
      (.httpException 500 ("Error forwarding request: " ++
          "Connection refused"),
       [.bufferedRequest ((chosenTarget envEx []).base_url ++ "/" ++
            "completions")
          (chosenTarget envEx []).api_key (Json.obj [])])) ∧
    (proxy_request envEx 7 "completions" (Json.obj [])
        ⟨.response 502 none, []⟩ =
      (.pythonError (.jsonDecodeError "Expecting value"),
       [.bufferedRequest ((chosenTarget envEx []).base_url ++ "/" ++
            "completions")
          (chosenTarget envEx []).api_key (Json.obj []),
        .responseReceived]))) :=
  ⟨by decide, by simp [lookupField],
   C6_buffered_error_paths envEx 7 "completions" [] "Connection refused" 502
     [] (by decide) (by simp [lookupField])⟩

/-- C10: in buffered mode, for every upstream HTTP status code — including
4xx/5xx — whose body parses as JSON `j`, the handler returns `j` as a
normal JSON result (HTTP 200 from the framework's point of view) and
writes one AuditRecord recording it as a successful interaction; the
upstream status is never inspected or propagated. -/
theorem C10_upstream_status_ignored (env : Env) (now : Nat) (path : String)
    (fields : List (String × Json)) (st : Nat) (j : Json) (cs : List String)
    (h1 : path ≠ "models")
    (h2 : ¬(path = "chat/completions" ∧
        lookupField fields "stream" = some (Json.bool true))) :
    (proxy_request env now path (Json.obj fields)
        ⟨.response st (some j), cs⟩).1 = .json j ∧
    auditsOf (proxy_request env now path (Json.obj fields)
        ⟨.response st (some j), cs⟩).2 =
      [⟨now, path, Json.obj fields, j⟩] := by
  rw [proxy_request_obj env now path fields _ h1]
  unfold forward
  rw [if_neg (fun hx => h2 ⟨hx.1, (isTrueLit_getD _).1 hx.2⟩)]
  exact ⟨rfl, rfl⟩

/-- C10 witness: an upstream 404 whose JSON error body is relayed as a
success and audited. -/
theorem C10_witness :
    ("embeddings" : String) ≠ "models" ∧
    ¬("embeddings" = "chat/completions" ∧
      lookupField [] "stream" = some (Json.bool true)) ∧
    ((proxy_request envEx 11 "embeddings" (Json.obj [])
        ⟨.response 404 (some (Json.obj [("error", Json.str "not found")])),
         []⟩).1 =
      .json (Json.obj [("error", Json.str "not found")]) ∧
    auditsOf (proxy_request envEx 11 "embeddings" (Json.obj [])
        ⟨.response 404 (some (Json.obj [("error", Json.str "not found")])),
         []⟩).2 =
      [⟨11, "embeddings", Json.obj [],
        Json.obj [("error", Json.str "not found")]⟩]) :=
  ⟨by decide, by simp [lookupField],
   C10_upstream_status_ignored envEx 11 "embeddings" [] 404
     (Json.obj [("error", Json.str "not found")]) [] (by decide)
     (by simp [lookupField])⟩

/-- C8 counterexample: the claim says the returned catalog contains exactly
one entry with id `"qwen-2.5-coder-32b"`.  The handler appends its
descriptor unconditionally, so when the upstream catalog already contains
an entry with that id, the returned catalog contains two. -/
theorem C8_counterexample :
    (get_models envEx 0 0 (.response 200 (some (Json.obj
        [("data", Json.arr [Json.obj
          [("id", Json.str "qwen-2.5-coder-32b")]])])))).1 =
      ProxyResult.json (Json.obj [("data", Json.arr
        [Json.obj [("id", Json.str "qwen-2.5-coder-32b")],
         qwenModelEntry 0])]) ∧
    qwenEntryCount [Json.obj [("id", Json.str "qwen-2.5-coder-32b")],
        qwenModelEntry 0] = 2 :=
  ⟨rfl, rfl⟩

/-- C8 amended: for every successful GET `/models` invocation (upstream
response parsed as an object whose `data` field is a list `xs`), the
handler returns the catalog with the alternate-model descriptor appended
after all upstream-provided entries in stable last position, and writes
exactly one AuditRecord whose request is the empty object and whose
response is the augmented catalog; the returned `data` list carries exactly
one more entry with the alternate id than the upstream list did (hence
exactly one such entry whenever the upstream provided none). -/
theorem C8_models_catalog (env : Env) (nowSec nowMs st : Nat)
    (fs : List (String × Json)) (xs : List Json)
    (h : lookupField fs "data" = some (Json.arr xs)) :
    get_models env nowSec nowMs (.response st (some (Json.obj fs))) =
      (.json (Json.obj (setField fs "data"
          (Json.arr (xs ++ [qwenModelEntry nowSec])))),
       [.getRequest (OPENAI_BASE_URL ++ "/models") (some env.OPENAI_API_KEY),
        .responseReceived,
        .auditWrite ⟨nowMs, "models", Json.obj [],
          Json.obj (setField fs "data"
            (Json.arr (xs ++ [qwenModelEntry nowSec])))⟩]) ∧
    (xs ++ [qwenModelEntry nowSec]).getLast? = some (qwenModelEntry nowSec) ∧
    qwenEntryCount (xs ++ [qwenModelEntry nowSec]) = qwenEntryCount xs + 1 := by
  refine ⟨?_, ?_, ?_⟩
  · simp only [get_models, h]
    rfl
  · rw [List.getLast?_concat]
  · simp [qwenEntryCount, List.filter_append, isQwenEntry, qwenModelEntry,
      Json.objLookup, lookupField, Json.eqStr]

/-- C8 witness: a one-entry upstream catalog gets the descriptor appended
in last position, audited with empty request. -/
theorem C8_witness :
    lookupField [("object", Json.str "list"),
        ("data", Json.arr [Json.obj [("id", Json.str "gpt-4")]])] "data" =
      some (Json.arr [Json.obj [("id", Json.str "gpt-4")]]) ∧
    (get_models envEx 7 9 (.response 200 (some (Json.obj
        [("object", Json.str "list"),
         ("data", Json.arr [Json.obj [("id", Json.str "gpt-4")]])]))) =
      (.json (Json.obj (setField [("object", Json.str "list"),
          ("data", Json.arr [Json.obj [("id", Json.str "gpt-4")]])] "data"
          (Json.arr ([Json.obj [("id", Json.str "gpt-4")]] ++
            [qwenModelEntry 7])))),
       [.getRequest (OPENAI_BASE_URL ++ "/models")
          (some envEx.OPENAI_API_KEY),
        .responseReceived,
        .auditWrite ⟨9, "models", Json.obj [],
          Json.obj (setField [("object", Json.str "list"),
            ("data", Json.arr [Json.obj [("id", Json.str "gpt-4")]])] "data"
            (Json.arr ([Json.obj [("id", Json.str "gpt-4")]] ++
              [qwenModelEntry 7])))⟩]) ∧
    ([Json.obj [("id", Json.str "gpt-4")]] ++
        [qwenModelEntry 7]).getLast? = some (qwenModelEntry 7) ∧
    qwenEntryCount ([Json.obj [("id", Json.str "gpt-4")]] ++
        [qwenModelEntry 7]) =
      qwenEntryCount [Json.obj [("id", Json.str "gpt-4")]] + 1) :=
  ⟨rfl, C8_models_catalog envEx 7 9 200
    [("object", Json.str "list"),
     ("data", Json.arr [Json.obj [("id", Json.str "gpt-4")]])]
    [Json.obj [("id", Json.str "gpt-4")]] rfl⟩

/-- C9: for every path, the OPTIONS handler performs no side effects (its
event trace is empty, so in particular it writes no AuditRecord), and both
the body's `methods` field and the `Allow` (and
`Access-Control-Allow-Methods`) headers list exactly the methods OPTIONS
and GET when the path is `"models"`, and OPTIONS and POST for every other
path. -/
theorem C9_options_discovery (path : String) :
    (options_request path).events = [] ∧
    (options_request path).content.objLookup "methods" =
      some (Json.arr (((if path = "models" then ["OPTIONS", "GET"]
        else ["OPTIONS", "POST"]) : List String).map Json.str)) ∧
    lookupHeader (options_request path).headers "Allow" =
      some (if path = "models" then "OPTIONS, GET" else "OPTIONS, POST") ∧
    lookupHeader (options_request path).headers
        "Access-Control-Allow-Methods" =
      some (if path = "models" then "OPTIONS, GET" else "OPTIONS, POST") := by
  by_cases h : path = "models"
  · subst h
    exact ⟨rfl, rfl, rfl, rfl⟩
  · refine ⟨rfl, ?_, ?_, ?_⟩ <;> · simp only [options_request, if_neg h]; rfl

end GroqProxy
